import Mathlib

set_option maxHeartbeats 1000000

/-!
Verification development for the netbox-prometheus-sd discovery script
(`netbox-prometheus-sd.py`).  The Python source is shallowly embedded:
JSON values become an inductive type, Python dicts become association
lists with in-place-update semantics, exceptions become `Except`, and
the NetBox API becomes a record of lookup functions supplied as input.
-/

/-- A JSON value as produced by the Python call `json.loads`.  Objects keep
insertion order with unique keys (later duplicate keys overwrite the
earlier value in place, as Python dicts do). -/
inductive JVal where
  | jnull
  | jbool (b : Bool)
  | jnum (n : Int)
  | jstr (s : String)
  | jarr (elems : List JVal)
  | jobj (fields : List (String × JVal))

/-- Python exceptions relevant to the script: `RequestError` from the
API client, `AddrFormatError` from `netaddr`, `IndexError` from `ip[0]`,
`TypeError` from `dict.update` on a non-mapping, `KeyError` from
the `__port__` label lookup. -/
inductive Err where
  | requestError
  | addrFormatError
  | indexError
  | typeError
  | keyError
deriving DecidableEq

/-- One element of the output document: `{"targets": [...], "labels": {...}}`. -/
structure TargetGroup where
  targets : List String
  labels : List (String × JVal)

/-- Python dict assignment `m[k] = v`: overwrite in place if the key is
present, otherwise append at the end (insertion order preserved). -/
def dictSet : List (String × JVal) → String → JVal → List (String × JVal)
  | [], k, v => [(k, v)]
  | kv :: rest, k, v => if kv.1 = k then (k, v) :: rest else kv :: dictSet rest k v

/-- Python dict lookup `m.get(k)`: first (unique) matching key. -/
def dictGet : List (String × JVal) → String → Option JVal
  | [], _ => none
  | kv :: rest, k => if kv.1 = k then some kv.2 else dictGet rest k

/-- Python `m.update(o)`: assign each key of `o` in order into `m`. -/
def dictUpdate (m : List (String × JVal)) (o : List (String × JVal)) : List (String × JVal) :=
  o.foldl (fun acc kv => dictSet acc kv.1 kv.2) m

/-- The value of the last occurrence of key `k` in a raw key/value list:
the value that survives when the list is written into a dict. -/
def lastGet : List (String × JVal) → String → Option JVal
  | [], _ => none
  | kv :: rest, k =>
    match lastGet rest k with
    | some v => some v
    | none => if kv.1 = k then some kv.2 else none

/-- The opening-brace character. -/
def lbrace : Char := Char.ofNat 123

/-- The closing-brace character. -/
def rbrace : Char := Char.ofNat 125

/-- The single-quote character, used by Python `repr` of strings. -/
def squote : String := String.mk [Char.ofNat 39]

/-- JSON insignificant whitespace. -/
def isWs (c : Char) : Bool := c = ' ' || c = '\n' || c = '\t' || c = '\r'

/-- Drop leading JSON whitespace. -/
def skipWs (cs : List Char) : List Char := cs.dropWhile isWs

/-- JSON string escape sequences accepted by the model (the `\\uXXXX`
form is outside the model; no data handled by the source uses it). -/
def unescape (c : Char) : Option Char :=
  if c = '"' then some '"'
  else if c = '\\' then some '\\'
  else if c = '/' then some '/'
  else if c = 'n' then some '\n'
  else if c = 't' then some '\t'
  else if c = 'r' then some '\r'
  else if c = 'b' then some (Char.ofNat 8)
  else if c = 'f' then some (Char.ofNat 12)
  else none

/-- Parse the body of a JSON string (the opening quote already
consumed), returning the string and the remaining input. -/
def pStr : List Char → Option (String × List Char)
  | [] => none
  | c :: rest =>
    if c = '"' then some ("", rest)
    else if c = '\\' then
      match rest with
      | [] => none
      | e :: rest2 =>
        match unescape e, pStr rest2 with
        | some ec, some (s, r) => some (String.mk (ec :: s.data), r)
        | _, _ => none
    else
      match pStr rest with
      | some (s, r) => some (String.mk (c :: s.data), r)
      | none => none

/-- Numeric value of a digit string. -/
def digitsVal (cs : List Char) : Nat :=
  cs.foldl (fun a c => a * 10 + (c.toNat - 48)) 0

/-- Parse a JSON unsigned integer; a fractional or exponent part is
outside the model (the label data of the script never carries floats). -/
def pNat (cs : List Char) : Option (Nat × List Char) :=
  let ds := cs.takeWhile Char.isDigit
  let rest := cs.dropWhile Char.isDigit
  if ds.isEmpty then none
  else
    match rest with
    | c :: _ => if c = '.' || c = 'e' || c = 'E' then none else some (digitsVal ds, rest)
    | [] => some (digitsVal ds, [])

/-- Parse a JSON integer with optional leading minus. -/
def pNum (cs : List Char) : Option (Int × List Char) :=
  match cs with
  | [] => none
  | c :: rest =>
    if c = '-' then
      match pNat rest with
      | some (n, r) => some (-(n : Int), r)
      | none => none
    else
      match pNat cs with
      | some (n, r) => some ((n : Int), r)
      | none => none

mutual

/-- Parse one JSON value (fuel-indexed recursive descent). -/
def pVal : Nat → List Char → Option (JVal × List Char)
  | 0, _ => none
  | Nat.succ fuel, cs =>
    match skipWs cs with
    | [] => none
    | c :: rest =>
      if c = '"' then
        match pStr rest with
        | some (s, r) => some (JVal.jstr s, r)
        | none => none
      else if c = lbrace then pObjBody fuel (skipWs rest) []
      else if c = '[' then pArrBody fuel (skipWs rest) []
      else if c = 't' then
        match rest with
        | 'r' :: 'u' :: 'e' :: r => some (JVal.jbool true, r)
        | _ => none
      else if c = 'f' then
        match rest with
        | 'a' :: 'l' :: 's' :: 'e' :: r => some (JVal.jbool false, r)
        | _ => none
      else if c = 'n' then
        match rest with
        | 'u' :: 'l' :: 'l' :: r => some (JVal.jnull, r)
        | _ => none
      else if c = '-' || c.isDigit then
        match pNum (c :: rest) with
        | some (n, r) => some (JVal.jnum n, r)
        | none => none
      else none

/-- Parse the members of a JSON array after `[` (input ws-skipped).
A trailing comma fails, as in the Python `json` module. -/
def pArrBody : Nat → List Char → List JVal → Option (JVal × List Char)
  | 0, _, _ => none
  | Nat.succ fuel, cs, acc =>
    match cs with
    | [] => none
    | c :: rest =>
      if c = ']' && acc.isEmpty then some (JVal.jarr [], rest)
      else
        match pVal fuel cs with
        | none => none
        | some (v, r) =>
          match skipWs r with
          | [] => none
          | c2 :: r2 =>
            if c2 = ',' then pArrBody fuel (skipWs r2) (acc ++ [v])
            else if c2 = ']' then some (JVal.jarr (acc ++ [v]), r2)
            else none

/-- Parse the members of a JSON object after the opening brace (input
ws-skipped).  Duplicate keys overwrite in place, as Python dicts do. -/
def pObjBody : Nat → List Char → List (String × JVal) → Option (JVal × List Char)
  | 0, _, _ => none
  | Nat.succ fuel, cs, acc =>
    match cs with
    | [] => none
    | c :: rest =>
      if c = rbrace && acc.isEmpty then some (JVal.jobj [], rest)
      else if c = '"' then
        match pStr rest with
        | none => none
        | some (k, r) =>
          match skipWs r with
          | [] => none
          | c2 :: r2 =>
            if c2 = ':' then
              match pVal fuel (skipWs r2) with
              | none => none
              | some (v, r3) =>
                match skipWs r3 with
                | [] => none
                | c3 :: r4 =>
                  if c3 = ',' then pObjBody fuel (skipWs r4) (dictSet acc k v)
                  else if c3 = rbrace then some (JVal.jobj (dictSet acc k v), r4)
                  else none
            else none
      else none

end

/-- Python `json.loads` on the custom-field string: one JSON document,
optionally surrounded by whitespace; trailing data is an error.
`none` models `ValueError`. -/
def json_loads (s : String) : Option JVal :=
  match pVal (s.length * 2 + 8) s.data with
  | some (v, rest) => if (skipWs rest).isEmpty then some v else none
  | none => none

mutual

/-- Python `repr()` of a JSON-derived value (used when a container value
is interpolated with `%s`): strings are single-quoted, `True`/`False`/
`None` spelling, lists in brackets, dicts in braces. -/
def pyRepr : JVal → String
  | .jnull => "None"
  | .jbool b => if b then "True" else "False"
  | .jnum n => toString n
  | .jstr s => squote ++ s ++ squote
  | .jarr xs => "[" ++ pyReprList xs ++ "]"
  | .jobj kvs => String.mk [lbrace] ++ pyReprObj kvs ++ String.mk [rbrace]

/-- Comma-joined `repr`s of list elements. -/
def pyReprList : List JVal → String
  | [] => ""
  | [x] => pyRepr x
  | x :: xs => pyRepr x ++ ", " ++ pyReprList xs

/-- Comma-joined `repr`s of dict entries. -/
def pyReprObj : List (String × JVal) → String
  | [] => ""
  | [(k, v)] => squote ++ k ++ squote ++ ": " ++ pyRepr v
  | (k, v) :: xs => squote ++ k ++ squote ++ ": " ++ pyRepr v ++ ", " ++ pyReprObj xs

end

/-- Python percent-s interpolation, i.e. `str(v)`, applied on a JSON-derived value: a string
renders bare, everything else as its `repr`. -/
def pyStr : JVal → String
  | .jstr s => s
  | v => pyRepr v

/-- Split a character list at every occurrence of `sep` (occurrences
are consumed; `n` separators yield `n+1` pieces). -/
def splitListChar (sep : Char) : List Char → List (List Char)
  | [] => [[]]
  | c :: rest =>
    let r := splitListChar sep rest
    if c = sep then [] :: r
    else
      match r with
      | [] => [[c]]
      | h :: t => (c :: h) :: t

/-- A non-empty all-digit character list. -/
def isDigits (cs : List Char) : Bool := !cs.isEmpty && cs.all Char.isDigit

/-- A valid dotted-quad octet: digits, value at most 255, no redundant
leading zero. -/
def validOctet (cs : List Char) : Bool :=
  isDigits cs && digitsVal cs ≤ 255 && (cs.length = 1 || cs.head? ≠ some '0')

/-- A valid dotted-quad IPv4 address. -/
def validIPv4 (cs : List Char) : Bool :=
  match splitListChar '.' cs with
  | [a, b, c, d] => validOctet a && validOctet b && validOctet c && validOctet d
  | _ => false

/-- Models `str(netaddr.IPNetwork(s).ip)`: accept `a.b.c.d` or
`a.b.c.d/p` with `p ≤ 32` and return the bare host address; `none`
models `netaddr.AddrFormatError`.  (IPv6 and exotic legacy formats are
outside the model; the claims concern dotted-quad data.) -/
def bareIP (s : String) : Option String :=
  match splitListChar '/' s.data with
  | [a] => if validIPv4 a then some (String.mk a) else none
  | [a, p] =>
    if validIPv4 a && isDigits p && digitsVal p ≤ 32 then some (String.mk a) else none
  | _ => none

/-- The configuration the script receives: `args.port` (already a
string, as `str(args.port)` makes it at use sites) and
`args.custom_field`. -/
structure Args where
  port : String
  custom_field : String

/-- A NetBox site reference: only its `slug` is read. -/
structure Site where
  slug : String

/-- A device or virtual machine as `gen_targets` reads it.
`name = none` models a missing/null `name` attribute; `primary_ip`
holds the CIDR string of `item.primary_ip.address` when the item has a
`primary_ip` attribute; `address` is `item.address` for IP-bearing
records reaching the `else` branch; `repr_str` is `repr(item)`. -/
structure Item where
  name : Option String
  site : Option Site
  custom_fields : List (String × Option String)
  primary_ip : Option String
  address : String
  repr_str : String

/-- A circuit as `discover_circuit` reads it: the ids of its two
termination references, its `cid`, its `repr`, and its custom fields. -/
structure Circuit where
  termination_a : Nat
  termination_z : Nat
  cid : Option String
  repr_str : String
  custom_fields : List (String × Option String)

/-- A circuit termination record: the id of its cable. -/
structure Termination where
  cable : Nat

/-- One side of a cable: `device = some id` models
`hasattr(side.device, 'id')` with that id; `name` is the interface
name of that side. -/
structure CableEnd where
  device : Option Nat
  name : String

/-- A cable record with its two sides. -/
structure Cable where
  termination_a : CableEnd
  termination_b : CableEnd

/-- A device record: `primary_ip = some a` models
`hasattr(device, 'primary_ip')` with `primary_ip.address = a`. -/
structure Device where
  primary_ip : Option String

/-- One IP-address record returned by the ipam filter. -/
structure IPRecord where
  address : String

/-- The NetBox API as the script consumes it: the four lookups used by
circuit resolution.  `Except.error .requestError` models
`pynetbox`/`urllib3` `RequestError` (object not found, network/API
error). -/
structure Netbox where
  getTermination : Nat → Except Err Termination
  getCable : Nat → Except Err Cable
  getDevice : Nat → Except Err Device
  filterIPs : Nat → String → Except Err (List IPRecord)

/-- Python `item.custom_fields.get(field)`: `none` covers a missing
key and a null value (both falsy at the use site). -/
def cfGet : List (String × Option String) → String → Option String
  | [], _ => none
  | kv :: rest, k => if kv.1 = k then kv.2 else cfGet rest k

/-- Python truthiness of an optional string (`not x` is true for
`None` and for the empty string). -/
def pyTruthyOpt : Option String → Bool
  | none => false
  | some s => !(s = "")

/-- Lines 135-139: re-fetch the selected device by id and return the
bare form of its primary IP, `none` when it has none; a malformed
address raises `AddrFormatError` (uncaught). -/
def devicePrimary (nb : Netbox) (did : Nat) : Except Err (Option String) :=
  match nb.getDevice did with
  | .error e => .error e
  | .ok dev =>
    match dev.primary_ip with
    | none => .ok none
    | some a =>
      match bareIP a with
      | none => .error .addrFormatError
      | some ip => .ok (some ip)

/-- Embedding of `Discovery.get_terminal_a_ip` (lines 123-139): fetch the
cable of the termination, prefer the cable side-A device, fall back to
side-B, `none` when neither side has a device; then the selected
bare primary IP of that device. -/
def get_terminal_a_ip (nb : Netbox) (ta : Termination) : Except Err (Option String) :=
  match nb.getCable ta.cable with
  | .error e => .error e
  | .ok cable =>
    match cable.termination_a.device, cable.termination_b.device with
    | some did, _ => devicePrimary nb did
    | none, some did => devicePrimary nb did
    | none, none => .ok none

/-- Lines 155-162: query IP addresses by (device id, interface name).
`RequestError` from the query is caught and yields `none`; indexing
`ip[0]` on an empty result raises `IndexError` (uncaught); a malformed
address raises `AddrFormatError` (uncaught). -/
def zQuery (nb : Netbox) (did : Nat) (iface : String) : Except Err (Option String) :=
  match nb.filterIPs did iface with
  | .error .requestError => .ok none
  | .error e => .error e
  | .ok [] => .error .indexError
  | .ok (r :: _) =>
    match bareIP r.address with
    | none => .error .addrFormatError
    | some ip => .ok (some ip)

/-- Embedding of `Discovery.get_terminal_z_ip` (lines 141-162): same side selection
as endpoint A, additionally recording the interface name, then the
ipam query. -/
def get_terminal_z_ip (nb : Netbox) (tz : Termination) : Except Err (Option String) :=
  match nb.getCable tz.cable with
  | .error e => .error e
  | .ok cable =>
    match cable.termination_a.device, cable.termination_b.device with
    | some did, _ => zQuery nb did cable.termination_a.name
    | none, some did => zQuery nb did cable.termination_b.name
    | none, none => .ok none

/-- Embedding of `Discovery.get_circuit_ip` (lines 100-120): fetch both termination
records, catching only `RequestError` (then both endpoints are
`None`); then resolve endpoint A and endpoint Z, whose own errors
propagate (the `try` block has already ended). -/
def get_circuit_ip (nb : Netbox) (c : Circuit) :
    Except Err (Option String × Option String) :=
  match nb.getTermination c.termination_a with
  | .error .requestError => .ok (none, none)
  | .error e => .error e
  | .ok ta =>
    match nb.getTermination c.termination_z with
    | .error .requestError => .ok (none, none)
    | .error e => .error e
    | .ok tz =>
      match get_terminal_a_ip nb ta with
      | .error e => .error e
      | .ok ipa =>
        match get_terminal_z_ip nb tz with
        | .error e => .error e
        | .ok ipz => .ok (ipa, ipz)

/-- Lines 73-74 / 199-200: a parsed value that is not a list is wrapped
as a one-element list. -/
def jvalToList : JVal → List JVal
  | .jarr xs => xs
  | v => [v]

/-- Lines 57-64: the baseline labels of `gen_targets` — `__port__` from
configuration, the name label from a truthy `name` else `repr(item)`,
and the site slug when the item has a site. -/
def genBaseline (args : Args) (item : Item) : List (String × JVal) :=
  let l0 : List (String × JVal) := [("__port__", JVal.jstr args.port)]
  let l1 :=
    match item.name with
    | some n =>
      if n = "" then dictSet l0 "__meta_netbox_name" (JVal.jstr item.repr_str)
      else dictSet l0 "__meta_netbox_name" (JVal.jstr n)
    | none => dictSet l0 "__meta_netbox_name" (JVal.jstr item.repr_str)
  match item.site with
  | some s => dictSet l1 "__meta_netbox_pop" (JVal.jstr s.slug)
  | none => l1

/-- Lines 181-188: the baseline labels of `discover_circuit` —
`__port__`, the name label from a truthy `cid` else `repr(circuit)`,
and the Z-side IP under `__meta_netbox_target`. -/
def circuitBaseline (args : Args) (c : Circuit) (ipz : String) : List (String × JVal) :=
  let l0 : List (String × JVal) := [("__port__", JVal.jstr args.port)]
  let l1 :=
    match c.cid with
    | some n =>
      if n = "" then dictSet l0 "__meta_netbox_name" (JVal.jstr c.repr_str)
      else dictSet l0 "__meta_netbox_name" (JVal.jstr n)
    | none => dictSet l0 "__meta_netbox_name" (JVal.jstr c.repr_str)
  dictSet l1 "__meta_netbox_target" (JVal.jstr ipz)

/-- The per-override-element emission loop (lines 76-84 and 202-206):
copy the baseline, update it with the override (a non-mapping raises
`TypeError`), compute the host (whose failure raises at this point),
read `__port__` from the merged labels, and emit one target group. -/
def emitTargets (base : List (String × JVal)) (hostE : Except Err String) :
    List JVal → Except Err (List TargetGroup)
  | [] => .ok []
  | t :: rest =>
    match t with
    | .jobj kvs =>
      let tl := dictUpdate base kvs
      match hostE with
      | .error e => .error e
      | .ok host =>
        match dictGet tl "__port__" with
        | none => .error .keyError
        | some pv =>
          match emitTargets base hostE rest with
          | .error e => .error e
          | .ok gs => .ok (⟨[host ++ ":" ++ pyStr pv], tl⟩ :: gs)
    | _ => .error .typeError

/-- Lines 79-82: the address-bearing record — `item.primary_ip` when
the item has that attribute, otherwise the item itself. -/
def itemAddress (item : Item) : String :=
  match item.primary_ip with
  | some a => a
  | none => item.address

/-- Line 83: `str(netaddr.IPNetwork(address.address).ip)`; a malformed
address raises `AddrFormatError` (uncaught in `gen_targets`). -/
def hostOfItem (item : Item) : Except Err String :=
  match bareIP (itemAddress item) with
  | some ip => .ok ip
  | none => .error .addrFormatError

/-- The body of the `gen_targets` loop (lines 53-84) for one item:
skip when the custom field is falsy, build the baseline, parse the
field (a `ValueError` skips the item), wrap a non-list value, then
emit one target group per override element. -/
def genTargetsItem (args : Args) (item : Item) : Except Err (List TargetGroup) :=
  match cfGet item.custom_fields args.custom_field with
  | none => .ok []
  | some s =>
    if s = "" then .ok []
    else
      match json_loads s with
      | none => .ok []
      | some v => emitTargets (genBaseline args item) (hostOfItem item) (jvalToList v)

/-- The body of the `discover_circuit` loop (lines 171-206) for one
circuit: skip when the custom field is falsy, resolve both endpoint
IPs (errors propagate), skip when either is falsy, build the baseline,
parse the field (a `ValueError` skips the circuit), then emit one
target group per override element with the A-side IP as host. -/
def discoverCircuitItem (nb : Netbox) (args : Args) (c : Circuit) :
    Except Err (List TargetGroup) :=
  match cfGet c.custom_fields args.custom_field with
  | none => .ok []
  | some s =>
    if s = "" then .ok []
    else
      match get_circuit_ip nb c with
      | .error e => .error e
      | .ok (ipa, ipz) =>
        if pyTruthyOpt ipa && pyTruthyOpt ipz then
          match json_loads s with
          | none => .ok []
          | some v =>
            emitTargets (circuitBaseline args c (ipz.getD "")) (.ok (ipa.getD ""))
              (jvalToList v)
        else .ok []

/-- Sequential per-object processing with incremental append: an error
raised for one object aborts the whole batch, a skipped object
contributes nothing. -/
def chainTargets (step : α → Except Err (List TargetGroup)) :
    List α → Except Err (List TargetGroup)
  | [] => .ok []
  | x :: xs =>
    match step x with
    | .error e => .error e
    | .ok ts =>
      match chainTargets step xs with
      | .error e => .error e
      | .ok rest => .ok (ts ++ rest)

/-- Embedding of `Discovery.gen_targets` over the (already filtered) device/vm
list. -/
def gen_targets (args : Args) (items : List Item) : Except Err (List TargetGroup) :=
  chainTargets (genTargetsItem args) items

/-- Embedding of `Discovery.discover_circuit` over the (already filtered) active
circuit list. -/
def discover_circuit (nb : Netbox) (args : Args) (circuits : List Circuit) :
    Except Err (List TargetGroup) :=
  chainTargets (discoverCircuitItem nb args) circuits

theorem dictGet_dictSet (m : List (String × JVal)) (a : String) (v : JVal) (k : String) :
    dictGet (dictSet m a v) k = if a = k then some v else dictGet m k := by
  induction m with
  | nil => simp [dictSet, dictGet]
  | cons kv rest ih =>
    by_cases h1 : kv.1 = a
    · by_cases h2 : a = k
      · simp [dictSet, dictGet, h1, h2]
      · have h3 : kv.1 ≠ k := by rw [h1]; exact h2
        simp [dictSet, dictGet, h1, h2, h3]
    · by_cases h3 : kv.1 = k
      · have h2 : a ≠ k := fun hak => h1 (by rw [h3, hak])
        simp [dictSet, dictGet, h1, h2, h3, Ne.symm h2]
      · simp [dictSet, dictGet, h1, h3, ih]

theorem dictGet_dictUpdate (o m : List (String × JVal)) (k : String) :
    dictGet (dictUpdate m o) k =
      match lastGet o k with
      | some v => some v
      | none => dictGet m k := by
  induction o generalizing m with
  | nil => simp [dictUpdate, lastGet]
  | cons kv rest ih =>
    have hstep : dictUpdate m (kv :: rest) = dictUpdate (dictSet m kv.1 kv.2) rest := rfl
    rw [hstep, ih]
    cases hl : lastGet rest k with
    | some v => simp [lastGet, hl]
    | none =>
      by_cases hk : kv.1 = k
      · simp [lastGet, hl, hk, dictGet_dictSet]
      · simp [lastGet, hl, hk, dictGet_dictSet]

theorem dictGet_dictUpdate_isSome (m o : List (String × JVal)) (k : String) (v : JVal)
    (h : dictGet m k = some v) :
    ∃ w, dictGet (dictUpdate m o) k = some w := by
  rw [dictGet_dictUpdate]
  cases hl : lastGet o k with
  | some w => exact ⟨w, rfl⟩
  | none => exact ⟨v, h⟩

theorem emitTargets_mem (base : List (String × JVal)) (hostE : Except Err String)
    (ts : List JVal) (gs : List TargetGroup)
    (h : emitTargets base hostE ts = .ok gs) :
    ∀ g ∈ gs, ∃ kvs, JVal.jobj kvs ∈ ts ∧ g.labels = dictUpdate base kvs ∧
      ∃ host pv, hostE = .ok host ∧ dictGet (dictUpdate base kvs) "__port__" = some pv ∧
        g.targets = [host ++ ":" ++ pyStr pv] := by
  induction ts generalizing gs with
  | nil =>
    simp [emitTargets] at h
    subst h
    intro g hg
    simp at hg
  | cons t rest ih =>
    cases t with
    | jobj kvs =>
      cases hostE with
      | error e => simp [emitTargets] at h
      | ok host =>
        cases hP : dictGet (dictUpdate base kvs) "__port__" with
        | none => simp [emitTargets, hP] at h
        | some pv =>
          cases hR : emitTargets base (Except.ok host) rest with
          | error e => simp [emitTargets, hP, hR] at h
          | ok gs0 =>
            simp [emitTargets, hP, hR] at h
            subst h
            intro g hg
            rcases List.mem_cons.mp hg with hg | hg
            · subst hg
              exact ⟨kvs, List.mem_cons_self _ _, rfl, host, pv, rfl, hP, rfl⟩
            · obtain ⟨kvs2, hmem, hlab, host2, pv2, hh2, hp2, ht2⟩ := ih gs0 hR g hg
              exact ⟨kvs2, List.mem_cons_of_mem _ hmem, hlab, host2, pv2, hh2, hp2, ht2⟩
    | jnull => simp [emitTargets] at h
    | jbool b => simp [emitTargets] at h
    | jnum n => simp [emitTargets] at h
    | jstr s => simp [emitTargets] at h
    | jarr xs => simp [emitTargets] at h

theorem emitTargets_length (base : List (String × JVal)) (hostE : Except Err String)
    (host : String) (pv0 : JVal)
    (hh : hostE = .ok host) (hp : dictGet base "__port__" = some pv0)
    (ts : List JVal) (ho : ∀ t ∈ ts, ∃ kvs, t = JVal.jobj kvs) :
    ∃ gs, emitTargets base hostE ts = .ok gs ∧ gs.length = ts.length := by
  subst hh
  induction ts with
  | nil => exact ⟨[], rfl, rfl⟩
  | cons t rest ih =>
    obtain ⟨kvs, rfl⟩ := ho t (List.mem_cons_self _ _)
    obtain ⟨gs, hgs, hlen⟩ := ih (fun t ht => ho t (List.mem_cons_of_mem _ ht))
    obtain ⟨pv, hpv⟩ := dictGet_dictUpdate_isSome base kvs "__port__" pv0 hp
    refine ⟨⟨[host ++ ":" ++ pyStr pv], dictUpdate base kvs⟩ :: gs, ?_, by simp [hlen]⟩
    simp [emitTargets, hpv, hgs]

theorem chainTargets_mem {α : Type} (step : α → Except Err (List TargetGroup))
    (items : List α) (gs : List TargetGroup)
    (h : chainTargets step items = .ok gs) :
    ∀ g ∈ gs, ∃ x ∈ items, ∃ ts, step x = .ok ts ∧ g ∈ ts := by
  induction items generalizing gs with
  | nil =>
    simp [chainTargets] at h
    subst h
    intro g hg
    simp at hg
  | cons x xs ih =>
    cases hx : step x with
    | error e => simp [chainTargets, hx] at h
    | ok ts =>
      cases hr : chainTargets step xs with
      | error e => simp [chainTargets, hx, hr] at h
      | ok rest =>
        simp [chainTargets, hx, hr] at h
        subst h
        intro g hg
        rcases List.mem_append.mp hg with hg | hg
        · exact ⟨x, List.mem_cons_self _ _, ts, hx, hg⟩
        · obtain ⟨y, hy, ts2, hts2, hg2⟩ := ih rest hr g hg
          exact ⟨y, List.mem_cons_of_mem _ hy, ts2, hts2, hg2⟩

theorem chainTargets_skip {α : Type} (step : α → Except Err (List TargetGroup))
    (x : α) (hx : step x = .ok []) (l1 l2 : List α) :
    chainTargets step (l1 ++ x :: l2) = chainTargets step (l1 ++ l2) := by
  induction l1 with
  | nil =>
    show chainTargets step (x :: l2) = chainTargets step l2
    cases hr : chainTargets step l2 with
    | error e => simp [chainTargets, hx, hr]
    | ok rest => simp [chainTargets, hx, hr]
  | cons y ys ih =>
    show chainTargets step (y :: (ys ++ x :: l2)) = chainTargets step (y :: (ys ++ l2))
    cases hy : step y with
    | error e => simp [chainTargets, hy]
    | ok ts => simp [chainTargets, hy, ih]

theorem chainTargets_error_cons {α : Type} (step : α → Except Err (List TargetGroup))
    (x : α) (e : Err) (hx : step x = .error e) (xs : List α) :
    chainTargets step (x :: xs) = .error e := by
  simp [chainTargets, hx]

theorem genBaseline_port (args : Args) (item : Item) :
    dictGet (genBaseline args item) "__port__" = some (JVal.jstr args.port) := by
  unfold genBaseline
  cases item.name with
  | none =>
    cases item.site with
    | none => simp +decide [dictGet_dictSet, dictGet]
    | some s => simp +decide [dictGet_dictSet, dictGet]
  | some n =>
    by_cases hn : n = "" <;>
    cases item.site with
    | none => simp +decide [hn, dictGet_dictSet, dictGet]
    | some s => simp +decide [hn, dictGet_dictSet, dictGet]

theorem genBaseline_name (args : Args) (item : Item) :
    (∀ n, item.name = some n → n ≠ "" →
      dictGet (genBaseline args item) "__meta_netbox_name" = some (JVal.jstr n)) ∧
    ((item.name = none ∨ item.name = some "") →
      dictGet (genBaseline args item) "__meta_netbox_name" = some (JVal.jstr item.repr_str)) := by
  constructor
  · intro n hn hne
    unfold genBaseline
    rw [hn]
    cases item.site with
    | none => simp +decide [hne, dictGet_dictSet, dictGet]
    | some s => simp +decide [hne, dictGet_dictSet, dictGet]
  · intro hcase
    unfold genBaseline
    rcases hcase with hn | hn <;> rw [hn] <;>
      cases item.site with
      | none => simp +decide [dictGet_dictSet, dictGet]
      | some s => simp +decide [dictGet_dictSet, dictGet]

theorem genBaseline_pop (args : Args) (item : Item) :
    (∀ s, item.site = some s →
      dictGet (genBaseline args item) "__meta_netbox_pop" = some (JVal.jstr s.slug)) ∧
    (item.site = none → dictGet (genBaseline args item) "__meta_netbox_pop" = none) := by
  constructor
  · intro s hs
    unfold genBaseline
    rw [hs]
    cases item.name with
    | none => simp +decide [dictGet_dictSet, dictGet]
    | some n => by_cases hn : n = "" <;> simp +decide [hn, dictGet_dictSet, dictGet]
  · intro hs
    unfold genBaseline
    rw [hs]
    cases item.name with
    | none => simp +decide [dictGet_dictSet, dictGet]
    | some n => by_cases hn : n = "" <;> simp +decide [hn, dictGet_dictSet, dictGet]

theorem circuitBaseline_port (args : Args) (c : Circuit) (ipz : String) :
    dictGet (circuitBaseline args c ipz) "__port__" = some (JVal.jstr args.port) := by
  unfold circuitBaseline
  cases c.cid with
  | none => simp +decide [dictGet_dictSet, dictGet]
  | some n => by_cases hn : n = "" <;> simp +decide [hn, dictGet_dictSet, dictGet]

theorem circuitBaseline_target (args : Args) (c : Circuit) (ipz : String) :
    dictGet (circuitBaseline args c ipz) "__meta_netbox_target" = some (JVal.jstr ipz) := by
  unfold circuitBaseline
  cases c.cid with
  | none => simp +decide [dictGet_dictSet, dictGet]
  | some n => by_cases hn : n = "" <;> simp +decide [hn, dictGet_dictSet, dictGet]

theorem circuitBaseline_name (args : Args) (c : Circuit) (ipz : String) :
    (∀ n, c.cid = some n → n ≠ "" →
      dictGet (circuitBaseline args c ipz) "__meta_netbox_name" = some (JVal.jstr n)) ∧
    ((c.cid = none ∨ c.cid = some "") →
      dictGet (circuitBaseline args c ipz) "__meta_netbox_name" =
        some (JVal.jstr c.repr_str)) := by
  constructor
  · intro n hn hne
    unfold circuitBaseline
    rw [hn]
    simp +decide [hne, dictGet_dictSet, dictGet]
  · intro hcase
    unfold circuitBaseline
    rcases hcase with hn | hn <;> rw [hn] <;> simp +decide [dictGet_dictSet, dictGet]

/-- Shared concrete configuration for witnesses: default port 10000,
custom field `prom_labels`. -/
def argsW : Args := ⟨"10000", "prom_labels"⟩

/-- C1: For every circuit termination, endpoint-A resolution fetches the
cable of the termination, selects the cable side carrying a device binding
preferring side-A and falling back to side-B, returns none when neither
side has a device, and otherwise re-fetches the selected device and
returns the bare (prefix-stripped) form of its primary IP, or none when
the device has no primary IP. -/
theorem C1_terminal_a_resolution (nb : Netbox) (ta : Termination) (cable : Cable)
    (hc : nb.getCable ta.cable = .ok cable) :
    (cable.termination_a.device = none → cable.termination_b.device = none →
      get_terminal_a_ip nb ta = .ok none) ∧
    (∀ did, (cable.termination_a.device = some did ∨
        (cable.termination_a.device = none ∧ cable.termination_b.device = some did)) →
      ∀ dev, nb.getDevice did = .ok dev →
        (dev.primary_ip = none → get_terminal_a_ip nb ta = .ok none) ∧
        (∀ a ip, dev.primary_ip = some a → bareIP a = some ip →
          get_terminal_a_ip nb ta = .ok (some ip))) := by
  constructor
  · intro hA hB
    simp [get_terminal_a_ip, hc, hA, hB]
  · rintro did (hA | ⟨hA, hB⟩) dev hdev
    · constructor
      · intro hip
        simp [get_terminal_a_ip, hc, hA, devicePrimary, hdev, hip]
      · intro a ip ha hip
        simp [get_terminal_a_ip, hc, hA, devicePrimary, hdev, ha, hip]
    · constructor
      · intro hip
        simp [get_terminal_a_ip, hc, hA, hB, devicePrimary, hdev, hip]
      · intro a ip ha hip
        simp [get_terminal_a_ip, hc, hA, hB, devicePrimary, hdev, ha, hip]

/-- Concrete NetBox world for the C1 witness: every cable resolves to a
cable whose side-A carries device 100, and device 100 has primary IP
`10.0.0.5/24`. -/
def nbC1 : Netbox :=
  ⟨fun _ => .error .requestError,
   fun _ => .ok ⟨⟨some 100, "eth0"⟩, ⟨none, ""⟩⟩,
   fun i => if i = 100 then .ok ⟨some "10.0.0.5/24"⟩ else .error .requestError,
   fun _ _ => .error .requestError⟩

/-- C1 witness: in `nbC1`, endpoint-A resolution of the termination on
cable 7 yields the bare primary IP of the side-A device. -/
theorem C1_witness : get_terminal_a_ip nbC1 ⟨7⟩ = .ok (some "10.0.0.5") := by
  have h := (C1_terminal_a_resolution nbC1 ⟨7⟩ ⟨⟨some 100, "eth0"⟩, ⟨none, ""⟩⟩ rfl).2
    100 (Or.inl rfl) ⟨some "10.0.0.5/24"⟩ rfl
  exact h.2 "10.0.0.5/24" "10.0.0.5" rfl rfl

/-- C4: For every inventory object whose configured custom field is
missing, null, or empty/falsy, the object is silently skipped and
produces zero target groups in every discovery mode. -/
theorem C4_falsy_custom_field_skips (args : Args) (item : Item) (nb : Netbox)
    (c : Circuit) (l1 l2 : List Item) (cs1 cs2 : List Circuit)
    (hi : pyTruthyOpt (cfGet item.custom_fields args.custom_field) = false)
    (hc : pyTruthyOpt (cfGet c.custom_fields args.custom_field) = false) :
    genTargetsItem args item = .ok [] ∧
    discoverCircuitItem nb args c = .ok [] ∧
    gen_targets args (l1 ++ item :: l2) = gen_targets args (l1 ++ l2) ∧
    discover_circuit nb args (cs1 ++ c :: cs2) = discover_circuit nb args (cs1 ++ cs2) := by
  have h1 : genTargetsItem args item = .ok [] := by
    unfold genTargetsItem
    cases hv : cfGet item.custom_fields args.custom_field with
    | none => rfl
    | some s =>
      rw [hv] at hi
      simp [pyTruthyOpt] at hi
      simp [hi]
  have h2 : discoverCircuitItem nb args c = .ok [] := by
    unfold discoverCircuitItem
    cases hv : cfGet c.custom_fields args.custom_field with
    | none => rfl
    | some s =>
      rw [hv] at hc
      simp [pyTruthyOpt] at hc
      simp [hc]
  exact ⟨h1, h2, chainTargets_skip _ item h1 l1 l2, chainTargets_skip _ c h2 cs1 cs2⟩

/-- Item for the C4 witness: active device with a primary IP but no
custom fields at all. -/
def itemC4 : Item := ⟨some "edge9", none, [], some "10.0.0.9/24", "", "Device(edge9)"⟩

/-- Circuit for the C4 witness: its custom field is present but null. -/
def circC4 : Circuit := ⟨1, 2, some "C-9", "Circuit(C-9)", [("prom_labels", none)]⟩

/-- C4 witness: the fieldless device and the null-field circuit each
produce zero target groups, and dropping them from a batch leaves the
output unchanged. -/
theorem C4_witness :
    genTargetsItem argsW itemC4 = .ok [] ∧
    discoverCircuitItem nbC1 argsW circC4 = .ok [] ∧
    gen_targets argsW ([] ++ itemC4 :: []) = gen_targets argsW ([] ++ []) ∧
    discover_circuit nbC1 argsW ([] ++ circC4 :: []) = discover_circuit nbC1 argsW ([] ++ []) :=
  C4_falsy_custom_field_skips argsW itemC4 nbC1 circC4 [] [] [] [] rfl rfl

theorem genTargetsItem_emit (args : Args) (item : Item) (si : String)
    (hif : cfGet item.custom_fields args.custom_field = some si) (hine : si ≠ "")
    (v : JVal) (hj : json_loads si = some v) :
    genTargetsItem args item =
      emitTargets (genBaseline args item) (hostOfItem item) (jvalToList v) := by
  unfold genTargetsItem
  rw [hif]
  simp [hine, hj]

theorem genTargetsItem_badjson (args : Args) (item : Item) (si : String)
    (hif : cfGet item.custom_fields args.custom_field = some si) (hine : si ≠ "")
    (hj : json_loads si = none) :
    genTargetsItem args item = .ok [] := by
  unfold genTargetsItem
  rw [hif]
  simp [hine, hj]

theorem discoverCircuitItem_emit (nb : Netbox) (args : Args) (c : Circuit) (sc : String)
    (hcf : cfGet c.custom_fields args.custom_field = some sc) (hcne : sc ≠ "")
    (ipa ipz : String)
    (hres : get_circuit_ip nb c = .ok (some ipa, some ipz))
    (hipa : ipa ≠ "") (hipz : ipz ≠ "")
    (v : JVal) (hj : json_loads sc = some v) :
    discoverCircuitItem nb args c =
      emitTargets (circuitBaseline args c ipz) (.ok ipa) (jvalToList v) := by
  unfold discoverCircuitItem
  rw [hcf]
  simp [hcne, hres, pyTruthyOpt, hipa, hipz, hj]

theorem discoverCircuitItem_badjson (nb : Netbox) (args : Args) (c : Circuit) (sc : String)
    (hcf : cfGet c.custom_fields args.custom_field = some sc) (hcne : sc ≠ "")
    (p : Option String × Option String)
    (hres : get_circuit_ip nb c = .ok p)
    (hj : json_loads sc = none) :
    discoverCircuitItem nb args c = .ok [] := by
  unfold discoverCircuitItem
  rw [hcf]
  rcases p with ⟨ipa, ipz⟩
  by_cases h : pyTruthyOpt ipa && pyTruthyOpt ipz <;> simp [hcne, hres, h, hj]

/-- C5: For every qualifying object whose custom-field value parses as a
single JSON object (not an array), exactly 1 target group is produced
for it; for every qualifying object whose value parses as a JSON array
of N maps, exactly N target groups are produced (absent other skip
conditions). -/
theorem C5_override_counts (args : Args) (item : Item) (nb : Netbox) (c : Circuit)
    (si sc : String) (ip ipa ipz : String)
    (hif : cfGet item.custom_fields args.custom_field = some si) (hine : si ≠ "")
    (hip : bareIP (itemAddress item) = some ip)
    (hcf : cfGet c.custom_fields args.custom_field = some sc) (hcne : sc ≠ "")
    (hres : get_circuit_ip nb c = .ok (some ipa, some ipz))
    (hipa : ipa ≠ "") (hipz : ipz ≠ "") :
    (∀ kvs, json_loads si = some (JVal.jobj kvs) →
      ∃ g, genTargetsItem args item = .ok [g]) ∧
    (∀ ts, json_loads si = some (JVal.jarr ts) →
      (∀ t ∈ ts, ∃ kvs, t = JVal.jobj kvs) →
      ∃ gs, genTargetsItem args item = .ok gs ∧ gs.length = ts.length) ∧
    (∀ kvs, json_loads sc = some (JVal.jobj kvs) →
      ∃ g, discoverCircuitItem nb args c = .ok [g]) ∧
    (∀ ts, json_loads sc = some (JVal.jarr ts) →
      (∀ t ∈ ts, ∃ kvs, t = JVal.jobj kvs) →
      ∃ gs, discoverCircuitItem nb args c = .ok gs ∧ gs.length = ts.length) := by
  have hhost : hostOfItem item = .ok ip := by
    unfold hostOfItem
    rw [hip]
  refine ⟨?_, ?_, ?_, ?_⟩
  · intro kvs hj
    rw [genTargetsItem_emit args item si hif hine _ hj]
    obtain ⟨gs, hgs, hlen⟩ :=
      emitTargets_length (genBaseline args item) (hostOfItem item) ip
        (JVal.jstr args.port) hhost (genBaseline_port args item)
        (jvalToList (JVal.jobj kvs)) (by intro t ht; simp [jvalToList] at ht; exact ⟨kvs, ht⟩)
    obtain ⟨g, rfl⟩ := List.length_eq_one.mp (by simp [jvalToList] at hlen; exact hlen)
    exact ⟨g, hgs⟩
  · intro ts hj ho
    rw [genTargetsItem_emit args item si hif hine _ hj]
    exact emitTargets_length (genBaseline args item) (hostOfItem item) ip
      (JVal.jstr args.port) hhost (genBaseline_port args item) (jvalToList (JVal.jarr ts)) ho
  · intro kvs hj
    rw [discoverCircuitItem_emit nb args c sc hcf hcne ipa ipz hres hipa hipz _ hj]
    obtain ⟨gs, hgs, hlen⟩ :=
      emitTargets_length (circuitBaseline args c ipz) (.ok ipa) ipa
        (JVal.jstr args.port) rfl (circuitBaseline_port args c ipz)
        (jvalToList (JVal.jobj kvs)) (by intro t ht; simp [jvalToList] at ht; exact ⟨kvs, ht⟩)
    obtain ⟨g, rfl⟩ := List.length_eq_one.mp (by simp [jvalToList] at hlen; exact hlen)
    exact ⟨g, hgs⟩
  · intro ts hj ho
    exact discoverCircuitItem_emit nb args c sc hcf hcne ipa ipz hres hipa hipz _ hj ▸
      emitTargets_length (circuitBaseline args c ipz) (.ok ipa) ipa
        (JVal.jstr args.port) rfl (circuitBaseline_port args c ipz) (jvalToList (JVal.jarr ts)) ho

/-- Device item whose custom field holds an array of two label maps,
the second overriding `__port__`. -/
def item2W : Item :=
  ⟨some "n2", none,
   [("prom_labels", some "[\x7b\"job\":\"a\"\x7d,\x7b\"job\":\"b\",\"__port__\":\"9100\"\x7d]")],
   some "10.0.0.7/16", "", "Device(n2)"⟩

/-- Circuit whose custom field holds a single JSON object. -/
def cObjW : Circuit :=
  ⟨1, 2, some "C-100", "Circuit(C-100)", [("prom_labels", some "\x7b\"job\":\"circuit\"\x7d")]⟩

/-- Well-formed concrete NetBox world: circuit terminations 1 and 2 sit
on cables 10 and 20; cable 10 side-A carries device 100 (primary IP
`10.1.1.1/24`), cable 20 side-A carries device 200 interface `xe-0`,
whose ipam query returns `10.1.1.2/30`. -/
def nbW : Netbox :=
  ⟨fun i => if i = 1 then .ok ⟨10⟩ else if i = 2 then .ok ⟨20⟩ else .error .requestError,
   fun i => if i = 10 then .ok ⟨⟨some 100, "eth0"⟩, ⟨none, ""⟩⟩
            else if i = 20 then .ok ⟨⟨some 200, "xe-0"⟩, ⟨none, ""⟩⟩
            else .error .requestError,
   fun i => if i = 100 then .ok ⟨some "10.1.1.1/24"⟩ else .error .requestError,
   fun i iface => if i = 200 && iface = "xe-0" then .ok [⟨"10.1.1.2/30"⟩]
                  else .error .requestError⟩

/-- C5 witness: the two-map array item yields exactly 2 target groups,
and the object-valued circuit yields exactly 1. -/
theorem C5_witness :
    (∃ gs, genTargetsItem argsW item2W = .ok gs ∧ gs.length = 2) ∧
    (∃ g, discoverCircuitItem nbW argsW cObjW = .ok [g]) := by
  have h := C5_override_counts argsW item2W nbW cObjW
    "[\x7b\"job\":\"a\"\x7d,\x7b\"job\":\"b\",\"__port__\":\"9100\"\x7d]"
    "\x7b\"job\":\"circuit\"\x7d" "10.0.0.7" "10.1.1.1" "10.1.1.2"
    rfl (by decide) rfl rfl (by decide) rfl (by decide) (by decide)
  constructor
  · obtain ⟨gs, hgs, hlen⟩ := h.2.1
      [JVal.jobj [("job", JVal.jstr "a")],
       JVal.jobj [("job", JVal.jstr "b"), ("__port__", JVal.jstr "9100")]] rfl
      (by
        intro t ht
        rcases List.mem_cons.mp ht with rfl | ht2
        · exact ⟨_, rfl⟩
        rcases List.mem_cons.mp ht2 with rfl | ht3
        · exact ⟨_, rfl⟩
        · exact absurd ht3 (List.not_mem_nil t))
    exact ⟨gs, hgs, hlen⟩
  · exact h.2.2.1 [("job", JVal.jstr "circuit")] rfl

/-- C6: For every object whose custom-field value fails JSON parsing,
the failure is logged and only that object is skipped; the run
completes and the output document still contains the target groups of
all other valid objects. -/
theorem C6_malformed_json_skips (args : Args) (item : Item) (nb : Netbox) (c : Circuit)
    (si sc : String) (p : Option String × Option String)
    (hif : cfGet item.custom_fields args.custom_field = some si) (hine : si ≠ "")
    (hj : json_loads si = none)
    (hcf : cfGet c.custom_fields args.custom_field = some sc) (hcne : sc ≠ "")
    (hjc : json_loads sc = none)
    (hres : get_circuit_ip nb c = .ok p)
    (l1 l2 : List Item) (cs1 cs2 : List Circuit) :
    genTargetsItem args item = .ok [] ∧
    discoverCircuitItem nb args c = .ok [] ∧
    gen_targets args (l1 ++ item :: l2) = gen_targets args (l1 ++ l2) ∧
    discover_circuit nb args (cs1 ++ c :: cs2) = discover_circuit nb args (cs1 ++ cs2) := by
  have h1 := genTargetsItem_badjson args item si hif hine hj
  have h2 := discoverCircuitItem_badjson nb args c sc hcf hcne p hres hjc
  exact ⟨h1, h2, chainTargets_skip _ item h1 l1 l2, chainTargets_skip _ c h2 cs1 cs2⟩

/-- Scenario-1 device: named `edge1`, primary IP `10.0.0.5/24`, custom
field a single `job: node` map. -/
def itemS1 : Item :=
  ⟨some "edge1", none, [("prom_labels", some "\x7b\"job\":\"node\"\x7d")],
   some "10.0.0.5/24", "", "Device(edge1)"⟩

/-- Device whose custom field is malformed JSON (trailing comma). -/
def itemMW : Item :=
  ⟨some "m1", none, [("prom_labels", some "\x7b\"a\":1,\x7d")],
   some "10.0.0.6/24", "", "Device(m1)"⟩

/-- Circuit whose custom field is malformed JSON (trailing comma). -/
def cMW : Circuit :=
  ⟨1, 2, some "C-M", "Circuit(C-M)", [("prom_labels", some "\x7b\"a\":1,\x7d")]⟩

/-- C6 witness: the trailing-comma objects are skipped and a batch
containing them produces exactly the output of the batch without
them (the valid `edge1` device survives). -/
theorem C6_witness :
    genTargetsItem argsW itemMW = .ok [] ∧
    discoverCircuitItem nbW argsW cMW = .ok [] ∧
    gen_targets argsW ([itemS1] ++ itemMW :: []) = gen_targets argsW ([itemS1] ++ []) ∧
    discover_circuit nbW argsW ([] ++ cMW :: [cObjW]) =
      discover_circuit nbW argsW ([] ++ [cObjW]) :=
  C6_malformed_json_skips argsW itemMW nbW cMW "\x7b\"a\":1,\x7d" "\x7b\"a\":1,\x7d"
    (some "10.1.1.1", some "10.1.1.2") rfl (by decide) rfl rfl (by decide) rfl rfl
    [itemS1] [] [] [cObjW]

/-- C8: For every baseline label map and every override element, the
emitted label map equals the baseline merged with the override where on
key collision the override value wins (last write wins) and every
baseline key absent from the override keeps its baseline value; no
override element mutates the baseline seen by subsequent elements of
the same object. -/
theorem C8_merge_semantics (m o : List (String × JVal)) (k : String) :
    (∀ v, lastGet o k = some v → dictGet (dictUpdate m o) k = some v) ∧
    (lastGet o k = none → dictGet (dictUpdate m o) k = dictGet m k) ∧
    (∀ base hostE ts gs, emitTargets base hostE ts = .ok gs →
      ∀ g ∈ gs, ∃ kvs, JVal.jobj kvs ∈ ts ∧ g.labels = dictUpdate base kvs) := by
  refine ⟨?_, ?_, ?_⟩
  · intro v hv
    rw [dictGet_dictUpdate, hv]
  · intro hv
    rw [dictGet_dictUpdate, hv]
  · intro base hostE ts gs h g hg
    obtain ⟨kvs, hmem, hlab, _⟩ := emitTargets_mem base hostE ts gs h g hg
    exact ⟨kvs, hmem, hlab⟩

/-- C8 witness: a duplicate override key wins with its last write, and
a baseline key untouched by the override keeps its value. -/
theorem C8_witness :
    dictGet (dictUpdate [("a", JVal.jstr "1"), ("b", JVal.jstr "2")]
      [("b", JVal.jstr "3"), ("c", JVal.jstr "4"), ("b", JVal.jstr "5")]) "b" =
        some (JVal.jstr "5") ∧
    dictGet (dictUpdate [("a", JVal.jstr "1"), ("b", JVal.jstr "2")]
      [("b", JVal.jstr "3"), ("c", JVal.jstr "4"), ("b", JVal.jstr "5")]) "a" =
        dictGet [("a", JVal.jstr "1"), ("b", JVal.jstr "2")] "a" :=
  ⟨(C8_merge_semantics [("a", JVal.jstr "1"), ("b", JVal.jstr "2")]
      [("b", JVal.jstr "3"), ("c", JVal.jstr "4"), ("b", JVal.jstr "5")] "b").1
      (JVal.jstr "5") rfl,
   (C8_merge_semantics [("a", JVal.jstr "1"), ("b", JVal.jstr "2")]
      [("b", JVal.jstr "3"), ("c", JVal.jstr "4"), ("b", JVal.jstr "5")] "a").2.1 rfl⟩

theorem genTargetsItem_group (args : Args) (item : Item) (ts : List TargetGroup)
    (h : genTargetsItem args item = .ok ts) :
    ∀ g ∈ ts, ∃ host pv, dictGet g.labels "__port__" = some pv ∧
      g.targets = [host ++ ":" ++ pyStr pv] := by
  unfold genTargetsItem at h
  cases hv : cfGet item.custom_fields args.custom_field with
  | none =>
    rw [hv] at h
    cases h
    intro g hg
    simp at hg
  | some s =>
    rw [hv] at h
    by_cases hs : s = ""
    · simp [hs] at h
      subst h
      intro g hg
      simp at hg
    · cases hj : json_loads s with
      | none =>
        simp [hs, hj] at h
        subst h
        intro g hg
        simp at hg
      | some v =>
        simp [hs, hj] at h
        intro g hg
        obtain ⟨kvs, _, hlab, host, pv, _, hp, ht⟩ :=
          emitTargets_mem _ _ _ _ h g hg
        exact ⟨host, pv, by rw [hlab]; exact hp, ht⟩

theorem discoverCircuitItem_group (nb : Netbox) (args : Args) (c : Circuit)
    (ts : List TargetGroup) (h : discoverCircuitItem nb args c = .ok ts) :
    ∀ g ∈ ts, ∃ host pv, dictGet g.labels "__port__" = some pv ∧
      g.targets = [host ++ ":" ++ pyStr pv] := by
  unfold discoverCircuitItem at h
  cases hv : cfGet c.custom_fields args.custom_field with
  | none =>
    rw [hv] at h
    cases h
    intro g hg
    simp at hg
  | some s =>
    rw [hv] at h
    by_cases hs : s = ""
    · simp [hs] at h
      subst h
      intro g hg
      simp at hg
    · cases hres : get_circuit_ip nb c with
      | error e => simp [hs, hres] at h
      | ok p =>
        rcases p with ⟨ipa, ipz⟩
        by_cases ht2 : pyTruthyOpt ipa && pyTruthyOpt ipz
        · cases hj : json_loads s with
          | none =>
            simp [hs, hres, ht2, hj] at h
            subst h
            intro g hg
            simp at hg
          | some v =>
            simp [hs, hres, ht2, hj] at h
            intro g hg
            obtain ⟨kvs, _, hlab, host, pv, _, hp, htg⟩ :=
              emitTargets_mem _ _ _ _ h g hg
            exact ⟨host, pv, by rw [hlab]; exact hp, htg⟩
        · simp [hs, hres, ht2] at h
          subst h
          intro g hg
          simp at hg

/-- C10: For every target group emitted in any discovery mode, the
`targets` list contains exactly one endpoint string, and the
port component of that string equals the `__port__` value of the merged
(post-override) label map — so an override element supplying `__port__`
changes the scrape port of its emitted endpoint, not just the label. -/
theorem C10_single_target_port (args : Args) (items : List Item) (nb : Netbox)
    (circuits : List Circuit) (gs gs2 : List TargetGroup) :
    (gen_targets args items = .ok gs → ∀ g ∈ gs,
      ∃ host pv, dictGet g.labels "__port__" = some pv ∧
        g.targets = [host ++ ":" ++ pyStr pv]) ∧
    (discover_circuit nb args circuits = .ok gs2 → ∀ g ∈ gs2,
      ∃ host pv, dictGet g.labels "__port__" = some pv ∧
        g.targets = [host ++ ":" ++ pyStr pv]) := by
  constructor
  · intro h g hg
    obtain ⟨x, _, ts, hstep, hgts⟩ := chainTargets_mem _ items gs h g hg
    exact genTargetsItem_group args x ts hstep g hgts
  · intro h g hg
    obtain ⟨x, _, ts, hstep, hgts⟩ := chainTargets_mem _ circuits gs2 h g hg
    exact discoverCircuitItem_group nb args x ts hstep g hgts

/-- First target group emitted for `item2W`. -/
def g1W : TargetGroup :=
  ⟨["10.0.0.7:10000"],
   [("__port__", JVal.jstr "10000"), ("__meta_netbox_name", JVal.jstr "n2"),
    ("job", JVal.jstr "a")]⟩

/-- Second target group emitted for `item2W`: its override supplied
`__port__ = 9100` and the endpoint follows it. -/
def g2W : TargetGroup :=
  ⟨["10.0.0.7:9100"],
   [("__port__", JVal.jstr "9100"), ("__meta_netbox_name", JVal.jstr "n2"),
    ("job", JVal.jstr "b")]⟩

/-- C10 witness: in the concrete run over `item2W`, the group whose
override changed `__port__` satisfies the single-endpoint/port
invariant. -/
theorem C10_witness :
    ∃ host pv, dictGet g2W.labels "__port__" = some pv ∧
      g2W.targets = [host ++ ":" ++ pyStr pv] :=
  (C10_single_target_port argsW [item2W] nbW [] [g1W, g2W] []).1 rfl g2W
    (by simp [g1W, g2W])

/-- Device whose `name` attribute is present but the empty string; it
also has a site. -/
def itemC9 : Item :=
  ⟨some "", some ⟨"pop1"⟩, [("prom_labels", some "\x7b\"job\":\"x\"\x7d")],
   some "10.0.0.5/24", "", "Device(edge)"⟩

/-- C9 counterexample: `itemC9` has a name attribute (the empty
string), yet its name label is the textual fallback `repr(item)`, not
its display name — the `if getattr(item, 'name', None)` check tests
truthiness, not attribute presence. -/
theorem C9_counterexample :
    itemC9.name = some "" ∧
    dictGet (genBaseline argsW itemC9) "__meta_netbox_name" =
      some (JVal.jstr "Device(edge)") ∧
    (JVal.jstr "Device(edge)" = JVal.jstr "" → False) := by
  refine ⟨rfl, rfl, ?_⟩
  intro h
  injection h with h2
  exact absurd h2 (by decide)

/-- C9 amended: the baseline labels contain `__port__` set to the
configured port string and `__meta_netbox_name` set to the display
name of the object when the name attribute is present and non-empty, or to
the textual fallback representation when the name attribute is
missing, null, or empty; when the object has a site, a
`__meta_netbox_pop` label is additionally set to the site slug. -/
theorem C9_baseline_labels (args : Args) (item : Item) (c : Circuit) (ipz : String) :
    dictGet (genBaseline args item) "__port__" = some (JVal.jstr args.port) ∧
    (∀ n, item.name = some n → n ≠ "" →
      dictGet (genBaseline args item) "__meta_netbox_name" = some (JVal.jstr n)) ∧
    ((item.name = none ∨ item.name = some "") →
      dictGet (genBaseline args item) "__meta_netbox_name" =
        some (JVal.jstr item.repr_str)) ∧
    (∀ s, item.site = some s →
      dictGet (genBaseline args item) "__meta_netbox_pop" = some (JVal.jstr s.slug)) ∧
    dictGet (circuitBaseline args c ipz) "__port__" = some (JVal.jstr args.port) ∧
    (∀ n, c.cid = some n → n ≠ "" →
      dictGet (circuitBaseline args c ipz) "__meta_netbox_name" = some (JVal.jstr n)) ∧
    ((c.cid = none ∨ c.cid = some "") →
      dictGet (circuitBaseline args c ipz) "__meta_netbox_name" =
        some (JVal.jstr c.repr_str)) :=
  ⟨genBaseline_port args item, (genBaseline_name args item).1,
   (genBaseline_name args item).2, (genBaseline_pop args item).1,
   circuitBaseline_port args c ipz, (circuitBaseline_name args c ipz).1,
   (circuitBaseline_name args c ipz).2⟩

/-- C9 witness: for the concrete sited device `itemC9` and circuit
`cObjW`, the baseline carries the port, the fallback name (its name is
empty), the site slug, and the `cid` of the circuit. -/
theorem C9_witness :
    dictGet (genBaseline argsW itemC9) "__port__" = some (JVal.jstr "10000") ∧
    dictGet (genBaseline argsW itemC9) "__meta_netbox_name" =
      some (JVal.jstr "Device(edge)") ∧
    dictGet (genBaseline argsW itemC9) "__meta_netbox_pop" = some (JVal.jstr "pop1") ∧
    dictGet (circuitBaseline argsW cObjW "10.1.1.2") "__meta_netbox_name" =
      some (JVal.jstr "C-100") :=
  ⟨(C9_baseline_labels argsW itemC9 cObjW "10.1.1.2").1,
   (C9_baseline_labels argsW itemC9 cObjW "10.1.1.2").2.2.1 (Or.inr rfl),
   (C9_baseline_labels argsW itemC9 cObjW "10.1.1.2").2.2.2.1 ⟨"pop1"⟩ rfl,
   (C9_baseline_labels argsW itemC9 cObjW "10.1.1.2").2.2.2.2.2.1 "C-100" rfl (by decide)⟩

/-- Circuit whose override element itself sets `__meta_netbox_target`. -/
def cOvW : Circuit :=
  ⟨1, 2, some "C-100", "Circuit(C-100)",
   [("prom_labels",
     some "[\x7b\"job\":\"circuit\",\"__meta_netbox_target\":\"9.9.9.9\"\x7d]")]⟩

/-- The single target group emitted for `cOvW` in `nbW`. -/
def gOvW : TargetGroup :=
  ⟨["10.1.1.1:10000"],
   [("__port__", JVal.jstr "10000"), ("__meta_netbox_name", JVal.jstr "C-100"),
    ("__meta_netbox_target", JVal.jstr "9.9.9.9"), ("job", JVal.jstr "circuit")]⟩

/-- C3 counterexample: both endpoints of `cOvW` resolve (A to
`10.1.1.1`, Z to `10.1.1.2`), yet the emitted target group carries
`9.9.9.9` — not the Z-side IP — in `__meta_netbox_target`, because the
override element wins the merge. -/
theorem C3_counterexample :
    get_circuit_ip nbW cOvW = .ok (some "10.1.1.1", some "10.1.1.2") ∧
    discover_circuit nbW argsW [cOvW] = .ok [gOvW] ∧
    dictGet gOvW.labels "__meta_netbox_target" = some (JVal.jstr "9.9.9.9") ∧
    (JVal.jstr "9.9.9.9" = JVal.jstr "10.1.1.2" → False) := by
  refine ⟨rfl, rfl, rfl, ?_⟩
  intro h
  injection h with h2
  exact absurd h2 (by decide)

/-- C3 amended: for every active circuit with the custom field set, if
either endpoint resolves to a falsy value the circuit contributes zero
target groups; if both resolve, every emitted target group uses the
A-side IP as the scrape host, and carries the Z-side IP in the
`__meta_netbox_target` label unless the override element itself sets
that key (in which case the override value wins). -/
theorem C3_circuit_output (nb : Netbox) (args : Args) (c : Circuit)
    (ipaO ipzO : Option String)
    (hres : get_circuit_ip nb c = .ok (ipaO, ipzO)) :
    ((pyTruthyOpt ipaO = false ∨ pyTruthyOpt ipzO = false) →
      discoverCircuitItem nb args c = .ok []) ∧
    (∀ ipa ipz, ipaO = some ipa → ipzO = some ipz → ipa ≠ "" → ipz ≠ "" →
      ∀ gs, discoverCircuitItem nb args c = .ok gs →
        ∀ g ∈ gs, ∃ kvs pv,
          g.labels = dictUpdate (circuitBaseline args c ipz) kvs ∧
          dictGet g.labels "__port__" = some pv ∧
          g.targets = [ipa ++ ":" ++ pyStr pv] ∧
          (lastGet kvs "__meta_netbox_target" = none →
            dictGet g.labels "__meta_netbox_target" = some (JVal.jstr ipz))) := by
  constructor
  · intro hdisj
    unfold discoverCircuitItem
    cases hv : cfGet c.custom_fields args.custom_field with
    | none => rfl
    | some s =>
      by_cases hs : s = ""
      · simp [hs]
      · have hcond : (pyTruthyOpt ipaO && pyTruthyOpt ipzO) = false := by
          rcases hdisj with h | h <;> simp [h]
        simp [hs, hres, hcond]
  · intro ipa ipz ha hz hipa hipz gs hgs g hg
    subst ha
    subst hz
    unfold discoverCircuitItem at hgs
    cases hv : cfGet c.custom_fields args.custom_field with
    | none =>
      rw [hv] at hgs
      cases hgs
      simp at hg
    | some s =>
      rw [hv] at hgs
      by_cases hs : s = ""
      · simp [hs] at hgs
        subst hgs
        simp at hg
      · cases hj : json_loads s with
        | none =>
          simp [hs, hres, pyTruthyOpt, hipa, hipz, hj] at hgs
          subst hgs
          simp at hg
        | some v =>
          simp [hs, hres, pyTruthyOpt, hipa, hipz, hj] at hgs
          obtain ⟨kvs, _, hlab, host, pv, hhost, hp, ht⟩ :=
            emitTargets_mem _ _ _ _ hgs g hg
          cases hhost
          refine ⟨kvs, pv, hlab, by rw [hlab]; exact hp, ht, ?_⟩
          intro hlast
          rw [hlab, dictGet_dictUpdate, hlast]
          exact circuitBaseline_target args c ipz

/-- NetBox world in which both cables have no device bound on either
side, so both endpoints resolve to none. -/
def nbNone : Netbox :=
  ⟨fun i => if i = 1 then .ok ⟨10⟩ else if i = 2 then .ok ⟨20⟩ else .error .requestError,
   fun _ => .ok ⟨⟨none, ""⟩, ⟨none, ""⟩⟩,
   fun _ => .error .requestError,
   fun _ _ => .error .requestError⟩

/-- C3 witness: an unresolved circuit contributes zero groups, and in
the resolved run over `cObjW` the emitted group uses the A-side IP as
host and carries the Z-side IP in `__meta_netbox_target`. -/
theorem C3_witness :
    discoverCircuitItem nbNone argsW cObjW = .ok [] ∧
    (∃ kvs pv,
      gOvW.labels = dictUpdate (circuitBaseline argsW cOvW "10.1.1.2") kvs ∧
      dictGet gOvW.labels "__port__" = some pv ∧
      gOvW.targets = ["10.1.1.1" ++ ":" ++ pyStr pv] ∧
      (lastGet kvs "__meta_netbox_target" = none →
        dictGet gOvW.labels "__meta_netbox_target" = some (JVal.jstr "10.1.1.2"))) :=
  ⟨(C3_circuit_output nbNone argsW cObjW none none rfl).1 (Or.inl rfl),
   (C3_circuit_output nbW argsW cOvW (some "10.1.1.1") (some "10.1.1.2") rfl).2
     "10.1.1.1" "10.1.1.2" rfl rfl (by decide) (by decide) [gOvW] rfl gOvW
     (by simp)⟩

/-- Like `nbW`, but the ipam IP-address query returns an empty result
set for every (device, interface) pair. -/
def nbE : Netbox :=
  ⟨fun i => if i = 1 then .ok ⟨10⟩ else if i = 2 then .ok ⟨20⟩ else .error .requestError,
   fun i => if i = 10 then .ok ⟨⟨some 100, "eth0"⟩, ⟨none, ""⟩⟩
            else if i = 20 then .ok ⟨⟨some 200, "xe-0"⟩, ⟨none, ""⟩⟩
            else .error .requestError,
   fun i => if i = 100 then .ok ⟨some "10.1.1.1/24"⟩ else .error .requestError,
   fun _ _ => .ok []⟩

/-- World whose termination lookups succeed but whose cable lookups
all fail with `RequestError`. -/
def nbCab : Netbox :=
  ⟨fun i => if i = 1 then .ok ⟨10⟩ else if i = 2 then .ok ⟨20⟩ else .error .requestError,
   fun _ => .error .requestError,
   fun _ => .error .requestError,
   fun _ _ => .error .requestError⟩

/-- C2 counterexample: two concrete query failures during endpoint
resolution that are not converted to none.  When the Z-side (device
id, interface name) query succeeds with no matching IP-address record,
indexing the empty result raises an uncaught `IndexError`; and when
the cable lookup itself fails with `RequestError`, that error is not
caught either.  Both abort the whole circuit discovery run. -/
theorem C2_counterexample :
    get_terminal_z_ip nbE ⟨20⟩ = .error .indexError ∧
    discover_circuit nbE argsW [cObjW] = .error .indexError ∧
    get_terminal_z_ip nbCab ⟨20⟩ = .error .requestError ∧
    discover_circuit nbCab argsW [cObjW] = .error .requestError := ⟨rfl, rfl, rfl, rfl⟩

/-- C2 amended: `RequestError` from the two termination lookups is
caught and converts the whole circuit result to (none, none), and
`RequestError` from the Z-side IP-address query is caught and converts
that endpoint to none; endpoint-Z resolution returns the bare address
of the first matching IP-address record otherwise.  But the absence of
a matching record is not caught: indexing the empty result raises an
uncaught `IndexError` that propagates as a fatal error; likewise, a
failure of the cable lookup propagates out of either endpoint
resolver, and a failure of the A-side device re-fetch propagates out
of endpoint-A resolution. -/
theorem C2_z_side_errors (nb : Netbox) (c : Circuit) (tz : Termination) (cable : Cable)
    (did : Nat) (iface : String) :
    (nb.getTermination c.termination_a = .error .requestError →
      get_circuit_ip nb c = .ok (none, none)) ∧
    (∀ ta, nb.getTermination c.termination_a = .ok ta →
      nb.getTermination c.termination_z = .error .requestError →
      get_circuit_ip nb c = .ok (none, none)) ∧
    (nb.getCable tz.cable = .ok cable →
      ((cable.termination_a.device = some did ∧ iface = cable.termination_a.name) ∨
       (cable.termination_a.device = none ∧ cable.termination_b.device = some did ∧
        iface = cable.termination_b.name)) →
      (nb.filterIPs did iface = .error .requestError →
        get_terminal_z_ip nb tz = .ok none) ∧
      (nb.filterIPs did iface = .ok [] →
        get_terminal_z_ip nb tz = .error .indexError) ∧
      (∀ r rest ip, nb.filterIPs did iface = .ok (r :: rest) →
        bareIP r.address = some ip →
        get_terminal_z_ip nb tz = .ok (some ip))) ∧
    (∀ e, nb.getCable tz.cable = .error e →
      get_terminal_z_ip nb tz = .error e ∧ get_terminal_a_ip nb tz = .error e) ∧
    (nb.getCable tz.cable = .ok cable → cable.termination_a.device = some did →
      ∀ e, nb.getDevice did = .error e → get_terminal_a_ip nb tz = .error e) := by
  refine ⟨?_, ?_, ?_, ?_, ?_⟩
  · intro h
    simp [get_circuit_ip, h]
  · intro ta hta h
    simp [get_circuit_ip, hta, h]
  · rintro hc (⟨hA, rfl⟩ | ⟨hA, hB, rfl⟩)
    · refine ⟨?_, ?_, ?_⟩
      · intro hf
        simp [get_terminal_z_ip, hc, hA, zQuery, hf]
      · intro hf
        simp [get_terminal_z_ip, hc, hA, zQuery, hf]
      · intro r rest ip hf hbip
        simp [get_terminal_z_ip, hc, hA, zQuery, hf, hbip]
    · refine ⟨?_, ?_, ?_⟩
      · intro hf
        simp [get_terminal_z_ip, hc, hA, hB, zQuery, hf]
      · intro hf
        simp [get_terminal_z_ip, hc, hA, hB, zQuery, hf]
      · intro r rest ip hf hbip
        simp [get_terminal_z_ip, hc, hA, hB, zQuery, hf, hbip]
  · intro e he
    exact ⟨by simp [get_terminal_z_ip, he], by simp [get_terminal_a_ip, he]⟩
  · intro hc hA e he
    simp [get_terminal_a_ip, hc, hA, devicePrimary, he]

/-- World whose termination lookups always fail with `RequestError`. -/
def nbReq : Netbox :=
  ⟨fun _ => .error .requestError,
   fun _ => .error .requestError,
   fun _ => .error .requestError,
   fun _ _ => .error .requestError⟩

/-- Like `nbW`, but the ipam query fails with `RequestError`. -/
def nbFErr : Netbox :=
  ⟨fun i => if i = 1 then .ok ⟨10⟩ else if i = 2 then .ok ⟨20⟩ else .error .requestError,
   fun i => if i = 10 then .ok ⟨⟨some 100, "eth0"⟩, ⟨none, ""⟩⟩
            else if i = 20 then .ok ⟨⟨some 200, "xe-0"⟩, ⟨none, ""⟩⟩
            else .error .requestError,
   fun i => if i = 100 then .ok ⟨some "10.1.1.1/24"⟩ else .error .requestError,
   fun _ _ => .error .requestError⟩

/-- C2 witness: a failed termination lookup yields (none, none), a
failed ipam query yields a none Z-endpoint, a successful non-empty
ipam result yields the bare first address, a failed cable lookup
propagates out of Z-side resolution, and a failed device re-fetch
propagates out of A-side resolution. -/
theorem C2_witness :
    get_circuit_ip nbReq cObjW = .ok (none, none) ∧
    get_terminal_z_ip nbFErr ⟨20⟩ = .ok none ∧
    get_terminal_z_ip nbW ⟨20⟩ = .ok (some "10.1.1.2") ∧
    get_terminal_z_ip nbCab ⟨20⟩ = .error .requestError ∧
    get_terminal_a_ip nbW ⟨20⟩ = .error .requestError :=
  ⟨(C2_z_side_errors nbReq cObjW ⟨20⟩ ⟨⟨some 200, "xe-0"⟩, ⟨none, ""⟩⟩ 200 "xe-0").1 rfl,
   ((C2_z_side_errors nbFErr cObjW ⟨20⟩ ⟨⟨some 200, "xe-0"⟩, ⟨none, ""⟩⟩ 200 "xe-0").2.2.1
     rfl (Or.inl ⟨rfl, rfl⟩)).1 rfl,
   ((C2_z_side_errors nbW cObjW ⟨20⟩ ⟨⟨some 200, "xe-0"⟩, ⟨none, ""⟩⟩ 200 "xe-0").2.2.1
     rfl (Or.inl ⟨rfl, rfl⟩)).2.2 ⟨"10.1.1.2/30"⟩ [] "10.1.1.2" rfl rfl,
   ((C2_z_side_errors nbCab cObjW ⟨20⟩ ⟨⟨some 200, "xe-0"⟩, ⟨none, ""⟩⟩ 200 "xe-0").2.2.2.1
     Err.requestError rfl).1,
   (C2_z_side_errors nbW cObjW ⟨20⟩ ⟨⟨some 200, "xe-0"⟩, ⟨none, ""⟩⟩ 200 "xe-0").2.2.2.2
     rfl rfl Err.requestError rfl⟩

/-- Device with a syntactically invalid primary address. -/
def itemBadW : Item :=
  ⟨some "bad1", none, [("prom_labels", some "\x7b\"job\":\"x\"\x7d")],
   some "notanip", "", "Device(bad1)"⟩

/-- C7 counterexample: the invalid-address object is not skipped — its
`AddrFormatError` propagates out of `gen_targets` and aborts the whole
batch, losing the group of the valid `edge1` object as well. -/
theorem C7_counterexample :
    genTargetsItem argsW itemBadW = .error .addrFormatError ∧
    gen_targets argsW [itemBadW, itemS1] = .error .addrFormatError := ⟨rfl, rfl⟩

/-- C7 amended: for every object whose address string is not a valid
CIDR address, bare-address extraction fails with an `AddrFormatError`
that is not caught anywhere: it propagates out of target generation
(and out of circuit A-side resolution) and aborts the run. -/
theorem C7_addr_format_aborts (args : Args) (item : Item) (si : String)
    (kvs : List (String × JVal)) (nb : Netbox) (did : Nat) (dev : Device)
    (a : String) (ta : Termination) (cable : Cable) (l2 : List Item)
    (hif : cfGet item.custom_fields args.custom_field = some si) (hine : si ≠ "")
    (hj : json_loads si = some (JVal.jobj kvs))
    (hbad : bareIP (itemAddress item) = none) :
    genTargetsItem args item = .error .addrFormatError ∧
    gen_targets args (item :: l2) = .error .addrFormatError ∧
    (nb.getCable ta.cable = .ok cable → cable.termination_a.device = some did →
      nb.getDevice did = .ok dev → dev.primary_ip = some a → bareIP a = none →
      get_terminal_a_ip nb ta = .error .addrFormatError) := by
  have h1 : genTargetsItem args item = .error .addrFormatError := by
    rw [genTargetsItem_emit args item si hif hine _ hj]
    simp [jvalToList, emitTargets, hostOfItem, hbad]
  refine ⟨h1, chainTargets_error_cons _ item _ h1 l2, ?_⟩
  intro hc hA hdev hip hbip
  simp [get_terminal_a_ip, hc, hA, devicePrimary, hdev, hip, hbip]

/-- World whose cable side-A device has a malformed primary address. -/
def nbBadIP : Netbox :=
  ⟨fun _ => .error .requestError,
   fun _ => .ok ⟨⟨some 100, "eth0"⟩, ⟨none, ""⟩⟩,
   fun i => if i = 100 then .ok ⟨some "notanip"⟩ else .error .requestError,
   fun _ _ => .error .requestError⟩

/-- C7 witness: the invalid-address device aborts its batch, and a
malformed device primary address aborts circuit A-side resolution. -/
theorem C7_witness :
    genTargetsItem argsW itemBadW = .error .addrFormatError ∧
    gen_targets argsW (itemBadW :: [itemS1]) = .error .addrFormatError ∧
    get_terminal_a_ip nbBadIP ⟨7⟩ = .error .addrFormatError := by
  have h := C7_addr_format_aborts argsW itemBadW "\x7b\"job\":\"x\"\x7d"
    [("job", JVal.jstr "x")] nbBadIP 100 ⟨some "notanip"⟩ "notanip" ⟨7⟩
    ⟨⟨some 100, "eth0"⟩, ⟨none, ""⟩⟩ [itemS1] rfl (by decide) rfl rfl
  exact ⟨h.1, h.2.1, h.2.2 rfl rfl rfl rfl rfl⟩
